import Mathlib

/-!
Verification of the request-signing and routed-request layer of the
jumpserver-python-sdk (`src/jms/api.py`).

The embedding below translates the Python source into Lean, line by line:

* Python dicts used as lookup tables (`Request.func_mapping`,
  `ApiRequest.api_url_mapping`) become association lists read through
  `dictGet`.
* `requests.structures.CaseInsensitiveDict` becomes an association list
  whose set/get operations normalize keys with `str.lower()` (`lowerStr`,
  `ciSet` / `ciGet` / `ciContains`).
* JSON values returned by `response.json()` become the inductive `Json`;
  `json.dumps` (default separators) becomes `jsonDumps`.
* The `dotmap.DotMap` wrapper becomes `PyVal` together with `dotmapOf`;
  its `__getattr__` and `__getitem__` are `PyVal.attr` and `PyVal.item`,
  both reading the same underlying mapping, as in the dotmap library.
* Fallible Python code becomes `Except PyError _`; an uncaught Python
  exception is an `Except.error` value (`AttributeError`, `TypeError`,
  `ValueError`, `RequestError`, and the two `requests` connection errors).
* The HTTP transport is a parameter: a `TransportBehavior` says whether the
  one dispatch of a call raises a connection error / timeout or returns a
  concrete `Response`.  A `Response` carries its status code and the result
  of `.json()` (`some j` when the body is valid JSON, `none` when `.json()`
  raises `ValueError`).
-/

namespace Jms

/-- JSON trees as produced by `response.json()` and consumed by
`json.dumps`.  Numbers are modelled as integers (every payload in scope is
integral). -/
inductive Json where
  | null
  | num (n : Int)
  | str (s : String)
  | bool (b : Bool)
  | arr (elems : List Json)
  | obj (kvs : List (String × Json))

/-- Values of the `dotmap.DotMap` wrapper: a JSON tree in which every object
node has been replaced by a `DotMap` (`dm`) supporting both key and
attribute access, recursively, including objects nested inside arrays. -/
inductive PyVal where
  | pnull
  | pnum (n : Int)
  | pstr (s : String)
  | pbool (b : Bool)
  | list (elems : List PyVal)
  | dm (kvs : List (String × PyVal))

mutual

/-- `DotMap(...)` conversion: wraps every JSON object node, recursively
(this is what `DotMap({'content': content}).content` yields for `content`). -/
def dotmapOf : Json → PyVal
  | .null => .pnull
  | .num n => .pnum n
  | .str s => .pstr s
  | .bool b => .pbool b
  | .arr elems => .list (dotmapArr elems)
  | .obj kvs => .dm (dotmapObj kvs)

/-- `DotMap` conversion of the elements of a JSON array. -/
def dotmapArr : List Json → List PyVal
  | [] => []
  | j :: rest => dotmapOf j :: dotmapArr rest

/-- `DotMap` conversion of the entries of a JSON object. -/
def dotmapObj : List (String × Json) → List (String × PyVal)
  | [] => []
  | (k, v) :: rest => (k, dotmapOf v) :: dotmapObj rest

end

/-- `DotMap.__getattr__`: attribute-style access `m.k`, a lookup in the
underlying ordered mapping. -/
def PyVal.attr : PyVal → String → Option PyVal
  | .dm kvs, k => (kvs.find? (fun p => p.1 = k)).map (fun p => p.2)
  | _, _ => none

/-- `DotMap.__getitem__`: key-based access `m[k]`, a lookup in the same
underlying ordered mapping as `PyVal.attr`. -/
def PyVal.item : PyVal → String → Option PyVal
  | .dm kvs, k => (kvs.find? (fun p => p.1 = k)).map (fun p => p.2)
  | _, _ => none

mutual

/-- `json.dumps` with the Python default separators `', '` and `': '`.
String escaping is not modelled (no string in scope needs escapes). -/
def jsonDumps : Json → String
  | .null => "null"
  | .num n => toString n
  | .str s => "\"" ++ s ++ "\""
  | .bool b => if b then "true" else "false"
  | .arr elems => "[" ++ dumpsArr elems ++ "]"
  | .obj kvs => "\x7b" ++ dumpsObj kvs ++ "\x7d"

/-- `json.dumps` of the comma-separated elements of an array. -/
def dumpsArr : List Json → String
  | [] => ""
  | [j] => jsonDumps j
  | j :: rest => jsonDumps j ++ ", " ++ dumpsArr rest

/-- `json.dumps` of the comma-separated entries of an object. -/
def dumpsObj : List (String × Json) → String
  | [] => ""
  | [(k, v)] => "\"" ++ k ++ "\": " ++ jsonDumps v
  | (k, v) :: rest => "\"" ++ k ++ "\": " ++ jsonDumps v ++ ", " ++ dumpsObj rest

end

/-- Python exceptions that escape, or are raised by, the code under
verification. `RequestError` is the SDK's own exception class
(`jms.exceptions.RequestError`). -/
inductive PyError where
  | attributeError (attrName : String)
  | typeError (msg : String)
  | valueError (msg : String)
  | requestError (msg : String)
  | connectionError
  | connectTimeout
deriving DecidableEq

/-- `dict.get` on an association list (first binding wins, as in a dict
with distinct keys). -/
def dictGet {α : Type} (d : List (String × α)) (k : String) : Option α :=
  (d.find? (fun p => p.1 = k)).map (fun p => p.2)

/-- Key normalization of `CaseInsensitiveDict`: `str.lower()`. -/
def lowerStr (s : String) : String := ⟨s.data.map Char.toLower⟩

/-- Case-insensitive lookup of `requests.structures.CaseInsensitiveDict`. -/
def ciGet (h : List (String × String)) (k : String) : Option String :=
  (h.find? (fun p => lowerStr p.1 = lowerStr k)).map (fun p => p.2)

/-- Case-insensitive store of `CaseInsensitiveDict`: setting a key replaces
any binding whose key matches case-insensitively. -/
def ciSet (h : List (String × String)) (k v : String) : List (String × String) :=
  (h.filter (fun p => !(lowerStr p.1 = lowerStr k))) ++ [(k, v)]

/-- Case-insensitive membership test (`'User-Agent' not in self.headers`). -/
def ciContains (h : List (String × String)) (k : String) : Bool :=
  (h.find? (fun p => lowerStr p.1 = lowerStr k)).isSome

/-- `str.rstrip('/')`: drop every trailing `'/'`. -/
def rstripSlash (s : String) : String :=
  ⟨(s.data.reverse.dropWhile (fun c => c = '/')).reverse⟩

/-- The module constant `_USER_AGENT = 'jms-sdk-py'`. -/
def USER_AGENT : String := "jms-sdk-py"

/-- Number of `%s` conversion slots in a template, scanned left to right
without overlap, as Python's `%` formatting counts them (the route tables in
scope use only `%s` slots). -/
def psCount : List Char → Nat
  | [] => 0
  | [_] => 0
  | c₁ :: c₂ :: rest =>
    if c₁ = '%' ∧ c₂ = 's' then psCount rest + 1 else psCount (c₂ :: rest)

/-- Substitution of the leftmost `%s` slot by the argument, the effect of
Python's `template % arg` on a single-slot template. -/
def substFirstPS (v : List Char) : List Char → List Char
  | [] => []
  | [c] => [c]
  | c₁ :: c₂ :: rest =>
    if c₁ = '%' ∧ c₂ = 's' then v ++ rest else c₁ :: substFirstPS v (c₂ :: rest)

/-- The membership test `'%s' in path`. -/
def hasPS (s : String) : Bool := decide (1 ≤ psCount s.data)

/-- `path % arg` for a `%s` template: succeeds exactly when the template has
one slot; with zero or several slots Python raises `TypeError` (the guard
`'%s' in path` in the source rules out the zero-slot call). -/
def pyPercent (path arg : String) : Except PyError String :=
  if psCount path.data = 1 then .ok ⟨substFirstPS arg.data path.data⟩
  else .error (.typeError "not enough arguments for format string")

/-- A primary-key argument as passed from Python call sites: an int, a
string, or `None` (the parameter default). -/
inductive Pk where
  | int (n : Int)
  | str (s : String)
  | pyNone
deriving DecidableEq

/-- Python truthiness of a `pk` value (`if pk`): `0`, `''` and `None` are
falsy. -/
def pkTruthy : Pk → Bool
  | .int n => !(n = 0)
  | .str s => !(s = "")
  | .pyNone => false

/-- `str(pk)`, the value interpolated by `path % pk`. -/
def pkStr : Pk → String
  | .int n => toString n
  | .str s => s
  | .pyNone => "None"

/-- An HTTP response as the `requests` transport delivers it: the status
code, and the outcome of `.json()` on the body (`none` when the body is not
valid JSON and `.json()` raises `ValueError`). -/
structure Response where
  status_code : Nat
  json : Option Json

/-- Behavior of the one transport dispatch of a call: raise a connection
error, raise a connect timeout, or deliver a response. -/
inductive TransportBehavior where
  | connError
  | connTimeout
  | returns (r : Response)

/-- The verbs bound in `Request.func_mapping` (`requests.get` etc.). -/
inductive HttpVerb where
  | get
  | post
  | patch
  | put
deriving DecidableEq

/-- The class attribute `Request.func_mapping`, a dict from method strings
to the transport's verb functions. -/
def funcMappingTable : List (String × HttpVerb) :=
  [("get", .get), ("post", .post), ("patch", .patch), ("put", .put)]

/-- One outgoing HTTP request as built by `Request.__init__`
(the mutable `result` attribute is modelled by `Request.request`'s return
value instead). -/
structure Request where
  url : String
  method : String
  params : List (String × String)
  headers : List (String × String)
  data : String

/-- The coercions `Request.__init__` applies to `data` before
serialization: a `DotMap` is converted back to a dict, any non-dict value
(including `None`) is replaced by the empty dict. -/
def dictData : Option Json → List (String × Json)
  | some (.obj kvs) => kvs
  | _ => []

/-- `Request.__init__(url, method, data, params, headers, content_type,
app_name)`: headers that are not a dict are replaced by `{}` and wrapped
case-insensitively; `Content-Type` is force-set to `content_type`; `data`
is coerced to a dict and serialized with `json.dumps`; `User-Agent` is set
only when absent, to `_USER_AGENT` suffixed with `/app_name` when an
application name is given. -/
def Request.init (url method : String) (data : Option Json)
    (params : List (String × String)) (headers : Option (List (String × String)))
    (content_type app_name : String) : Request :=
  let headers0 := match headers with
    | some h => h
    | none => []
  let headers1 := ciSet headers0 "Content-Type" content_type
  let dataStr := jsonDumps (Json.obj (dictData data))
  let headers2 :=
    if ciContains headers1 "User-Agent" then headers1
    else if app_name = "" then ciSet headers1 "User-Agent" USER_AGENT
    else ciSet headers1 "User-Agent" (USER_AGENT ++ "/" ++ app_name)
  ⟨url, method, params, headers2, dataStr⟩

/-- `Request.request`: `self.func_mapping.get(self.method)(url=..., ...)`.
When the method is not a key of `func_mapping`, `dict.get` yields `None`
and calling it raises `TypeError` before any HTTP dispatch (second
component `false`).  Otherwise the transport is invoked exactly once
(second component `true`) and either raises a connection error or returns
its response. -/
def Request.request (r : Request) (t : TransportBehavior) :
    Except PyError Response × Bool :=
  match dictGet funcMappingTable r.method with
  | none => (.error (.typeError "NoneType object is not callable"), false)
  | some _ =>
    match t with
    | .connError => (.error .connectionError, true)
    | .connTimeout => (.error .connectTimeout, true)
    | .returns resp => (.ok resp, true)

/-- The value of the local `result` in `ApiRequest.request` after the
try/except: either a real `requests` response, or the literal `{}` (a plain
dict) substituted on a caught connection error or on a server error. -/
inductive ReqResult where
  | resp (r : Response)
  | emptyDict

/-- The attribute access `result.status_code` (line 117): a plain dict has
no such attribute, so the `{}` substituted on failure raises
`AttributeError`. -/
def statusCodeOf : ReqResult → Except PyError Nat
  | .resp r => .ok r.status_code
  | .emptyDict => .error (.attributeError "status_code")

/-- `ApiRequest.parse_result`: `result.json()` is attempted; a `ValueError`
(non-JSON body) is replaced by the dict `{'error': 'We only support json
response'}`; the pair `(result, DotMap({'content': content}).content)` is
returned.  Called on the plain dict `{}`, the attribute access `.json`
raises `AttributeError` (a dict has no `json` method, and `AttributeError`
is not a `ValueError`). -/
def ApiRequest.parse_result : ReqResult → Except PyError (ReqResult × PyVal)
  | .emptyDict => .error (.attributeError "json")
  | .resp r =>
    match r.json with
    | some content => .ok (.resp r, dotmapOf content)
    | none => .ok (.resp r, dotmapOf (.obj [("error", .str "We only support json response")]))

/-- Lines 96-101 of `ApiRequest.request`: look the operation name up in
`api_url_mapping`; missing names (including `api_name=None`) fall back to
the root path `'/'`; when the name is mapped, the template is
`%`-formatted with `pk` only if `pk` is truthy and the template contains
`'%s'`. -/
def resolvePath (mapping : List (String × String)) (api_name : Option String)
    (pk : Pk) : Except PyError String :=
  match api_name with
  | none => .ok "/"
  | some name =>
    match dictGet mapping name with
    | none => .ok "/"
    | some path =>
      if pkTruthy pk && hasPS path then pyPercent path (pkStr pk) else .ok path

/-- Outcome of one `ApiRequest.request` call: the returned pair or the
escaped exception, whether the transport was invoked, and the `Request`
stored in `self.req` (present as soon as construction is reached). -/
structure CallOutcome where
  result : Except PyError (ReqResult × PyVal)
  transport_invoked : Bool
  req : Option Request

/-- Lines 117-120 of `ApiRequest.request`, after the try/except: read
`result.status_code` (raising `AttributeError` on the `{}` substituted for
a caught connection error), replace the result by `{}` when the status is
strictly above 500, and hand the result to `parse_result`. -/
def afterDispatch (res : ReqResult) (inv : Bool) (req : Request) : CallOutcome :=
  match statusCodeOf res with
  | .error e => ⟨.error e, inv, some req⟩
  | .ok sc =>
    if sc > 500 then ⟨ApiRequest.parse_result .emptyDict, inv, some req⟩
    else ⟨ApiRequest.parse_result res, inv, some req⟩

/-- `ApiRequest.request(api_name, pk, method, use_auth, data, params,
content_type)` against a given route table, endpoint, bound auth object
(`self._auth`, `none` when unbound) and transport.  Auth objects are kept
opaque (`Unit`): `Auth.sign_request` lives in `jms/authentication.py`,
outside the excerpted source, and only mutates headers no claim observes.
The steps, in source order: resolve the path, build the absolute URL from
the `rstrip`-ped endpoint, construct the `Request`, raise
`RequestError('Authentication required')` when `use_auth` is set and no
auth is bound, dispatch once, recover connection errors into the plain
dict `{}`, then run lines 117-120 (`afterDispatch`). -/
def ApiRequest.request (mapping : List (String × String)) (endpoint : String)
    (auth : Option Unit) (api_name : Option String) (pk : Pk) (method : String)
    (use_auth : Bool) (data : Option Json) (params : List (String × String))
    (content_type app_name : String) (transport : TransportBehavior) : CallOutcome :=
  match resolvePath mapping api_name pk with
  | .error e => ⟨.error e, false, none⟩
  | .ok path =>
    let url := rstripSlash endpoint ++ path
    let req := Request.init url method data params none content_type app_name
    if use_auth && auth.isNone then
      ⟨.error (.requestError "Authentication required"), false, some req⟩
    else
      match Request.request req transport with
      | (.error .connectionError, inv) => afterDispatch .emptyDict inv req
      | (.error .connectTimeout, inv) => afterDispatch .emptyDict inv req
      | (.error e, inv) => ⟨.error e, inv, some req⟩
      | (.ok r, inv) => afterDispatch (.resp r) inv req

/-- An auth object as bound by `UserService`: constructed from a token or
from a session-id/CSRF pair (`Auth(token=...)` / `Auth(session_id=...,
csrf_token=...)`). -/
inductive AuthCred where
  | token (t : String)
  | session (session_id csrf_token : String)
deriving DecidableEq

/-- Python truthiness of an optional string argument (`None` and `''` are
falsy). -/
def truthyS : Option String → Bool
  | some s => !(s = "")
  | none => false

/-- `UserService.auth(token, session_id, csrf_token)` (lines 358-364): bind
an auth object from the token when one is given, else from the session
pair when both parts are given, else raise
`ValueError('Token or session_id, csrf_token required')`.  The function
performs no network access: it only constructs `self._auth`. -/
def UserService.auth (token session_id csrf_token : Option String) :
    Except PyError AuthCred :=
  if truthyS token then .ok (.token (token.getD ""))
  else if truthyS session_id && truthyS csrf_token then
    .ok (.session (session_id.getD "") (csrf_token.getD ""))
  else .error (.valueError "Token or session_id, csrf_token required")

/-- A route table is well-formed when every template has at most one `%s`
slot — the shape `API_URL_MAPPING` (in `jms/config.py`) adheres to, per the
spec's route-table interface (§6). -/
def WFTable (mapping : List (String × String)) : Prop :=
  ∀ p ∈ mapping, psCount p.2.data ≤ 1

end Jms

namespace Jms

theorem subst_decomp (v : List Char) :
    ∀ l : List Char, psCount l = 1 →
      ∃ pre post : List Char,
        l = pre ++ '%' :: 's' :: post ∧ psCount pre = 0 ∧ psCount post = 0 ∧
          substFirstPS v l = pre ++ v ++ post := by
  intro l
  induction l with
  | nil => intro h; simp [psCount] at h
  | cons c₁ t ih =>
    cases t with
    | nil => intro h; simp [psCount] at h
    | cons c₂ rest =>
      intro h
      by_cases hc : c₁ = '%' ∧ c₂ = 's'
      · obtain ⟨rfl, rfl⟩ := hc
        have hrest : psCount rest = 0 := by
          simp [psCount] at h; omega
        exact ⟨[], rest, rfl, rfl, hrest, by simp [substFirstPS]⟩
      · have h' : psCount (c₂ :: rest) = 1 := by
          rw [psCount, if_neg hc] at h; exact h
        obtain ⟨pre, post, hdec, hpre, hpost, hsub⟩ := ih h'
        refine ⟨c₁ :: pre, post, by simp [hdec], ?_, hpost, ?_⟩
        · cases pre with
          | nil => rfl
          | cons p₀ pre' =>
            have hc₂ : c₂ = p₀ := by
              have := hdec; simp at this; exact this.1
            rw [psCount, if_neg (by rintro ⟨h1, h2⟩; exact hc ⟨h1, hc₂ ▸ h2⟩)]
            exact hpre
        · rw [substFirstPS, if_neg hc, hsub]; simp

theorem ciGet_cons (x : String × String) (l : List (String × String)) (k' : String) :
    ciGet (x :: l) k' = if lowerStr x.1 = lowerStr k' then some x.2 else ciGet l k' := by
  by_cases hx : lowerStr x.1 = lowerStr k' <;> simp [ciGet, List.find?, hx]

theorem ciGet_ciSet_self (h : List (String × String)) (k v : String) :
    ciGet (ciSet h k v) k = some v := by
  induction h with
  | nil =>
    show ciGet [(k, v)] k = some v
    rw [ciGet_cons, if_pos rfl]
  | cons p t ih =>
    by_cases hp : lowerStr p.1 = lowerStr k
    · have hset : ciSet (p :: t) k v = ciSet t k v := by
        simp [ciSet, List.filter_cons, hp]
      rw [hset, ih]
    · have hset : ciSet (p :: t) k v = p :: ciSet t k v := by
        simp [ciSet, List.filter_cons, hp]
      rw [hset, ciGet_cons, if_neg hp, ih]

theorem ciGet_ciSet_ne (h : List (String × String)) (k v k' : String)
    (hne : lowerStr k ≠ lowerStr k') :
    ciGet (ciSet h k v) k' = ciGet h k' := by
  induction h with
  | nil =>
    show ciGet [(k, v)] k' = ciGet [] k'
    rw [ciGet_cons, if_neg hne]
  | cons p t ih =>
    by_cases hp : lowerStr p.1 = lowerStr k
    · have hset : ciSet (p :: t) k v = ciSet t k v := by
        simp [ciSet, List.filter_cons, hp]
      have hp' : lowerStr p.1 ≠ lowerStr k' := by rw [hp]; exact hne
      rw [hset, ih, ciGet_cons, if_neg hp']
    · have hset : ciSet (p :: t) k v = p :: ciSet t k v := by
        simp [ciSet, List.filter_cons, hp]
      rw [hset, ciGet_cons, ciGet_cons, ih]

theorem afterDispatch_req (res : ReqResult) (inv : Bool) (req : Request) :
    (afterDispatch res inv req).req = some req := by
  unfold afterDispatch
  cases res with
  | emptyDict => rfl
  | resp r =>
    simp only [statusCodeOf]
    split <;> rfl

theorem resolvePath_some_eq (mapping : List (String × String)) (name : String) (pk : Pk) :
    resolvePath mapping (some name) pk =
      match dictGet mapping name with
      | none => .ok "/"
      | some path =>
        if pkTruthy pk && hasPS path then pyPercent path (pkStr pk) else .ok path := rfl

theorem resolvePath_ok_of_wf (mapping : List (String × String))
    (api_name : Option String) (pk : Pk) (hwf : WFTable mapping) :
    ∃ s, resolvePath mapping api_name pk = .ok s := by
  cases api_name with
  | none => exact ⟨"/", rfl⟩
  | some name =>
    rw [resolvePath_some_eq]
    cases hfind : dictGet mapping name with
    | none => exact ⟨"/", rfl⟩
    | some path =>
      by_cases hc : (pkTruthy pk && hasPS path) = true
      · have hmem : ∃ pr ∈ mapping, pr.2 = path := by
          unfold dictGet at hfind
          cases hf : mapping.find? (fun p => p.1 = name) with
          | none => rw [hf] at hfind; simp at hfind
          | some pr =>
            rw [hf] at hfind
            simp at hfind
            exact ⟨pr, List.mem_of_find?_eq_some hf, hfind⟩
        obtain ⟨pr, hpr, rfl⟩ := hmem
        have hle : psCount pr.2.data ≤ 1 := hwf pr hpr
        have hge : 1 ≤ psCount pr.2.data := by
          have := (Bool.and_eq_true _ _).mp hc
          exact of_decide_eq_true this.2
        refine ⟨⟨substFirstPS (pkStr pk).data pr.2.data⟩, ?_⟩
        simp only [hc, if_true, pyPercent, le_antisymm hle hge, if_pos]
      · rw [Bool.not_eq_true] at hc
        exact ⟨path, by simp [hc]⟩

end Jms

namespace Jms

theorem Request.init_content_type (url method : String) (data : Option Json)
    (params : List (String × String)) (headers : Option (List (String × String)))
    (content_type app_name : String) :
    ciGet (Request.init url method data params headers content_type app_name).headers
      "Content-Type" = some content_type := by
  have hua : lowerStr "User-Agent" ≠ lowerStr "Content-Type" := by decide
  simp only [Request.init]
  split
  · exact ciGet_ciSet_self _ _ _
  · split
    · rw [ciGet_ciSet_ne _ _ _ _ hua]
      exact ciGet_ciSet_self _ _ _
    · rw [ciGet_ciSet_ne _ _ _ _ hua]
      exact ciGet_ciSet_self _ _ _

/-- C1: Contrary to the claim, a call whose transport raises a connection
error (`ConnectionError` or `ConnectTimeout`) does not return a degraded
Result: the `except` handler substitutes the plain dict `{}` for the
result, and line 117 then evaluates `result.status_code`, which raises
`AttributeError` on a dict; the exception propagates to the caller. -/
theorem connection_error_raises_attribute_error :
    (ApiRequest.request [] "http://localhost" (some ()) none .pyNone "get" true none []
        "application/json" "coco" .connError).result
      = .error (.attributeError "status_code")
    ∧ (ApiRequest.request [] "http://localhost" (some ()) none .pyNone "get" true none []
        "application/json" "coco" .connTimeout).result
      = .error (.attributeError "status_code") := ⟨rfl, rfl⟩

/-- C2: Contrary to the claim, a transport response with status 502 does
not yield a degraded Result: the status check replaces the result by the
plain dict `{}` and `parse_result` then calls `result.json()`, which raises
`AttributeError` on a dict (not the `ValueError` the handler catches); the
exception propagates to the caller. -/
theorem status_502_raises_attribute_error :
    (ApiRequest.request [] "http://localhost" none none .pyNone "get" false none []
        "application/json" "coco" (.returns ⟨502, some (.obj [])⟩)).result
      = .error (.attributeError "json") := rfl

/-- C3: With `use_auth` true and no bound credential, `ApiRequest.request`
raises `RequestError('Authentication required')` and the transport is
never invoked, whatever the transport would have done. -/
theorem auth_required_before_dispatch
    (mapping : List (String × String)) (endpoint : String) (api_name : Option String)
    (pk : Pk) (method : String) (data : Option Json) (params : List (String × String))
    (content_type app_name : String) (transport : TransportBehavior)
    (hwf : WFTable mapping) :
    (ApiRequest.request mapping endpoint none api_name pk method true data params
        content_type app_name transport).result
      = .error (.requestError "Authentication required")
    ∧ (ApiRequest.request mapping endpoint none api_name pk method true data params
        content_type app_name transport).transport_invoked = false := by
  obtain ⟨p, hp⟩ := resolvePath_ok_of_wf mapping api_name pk hwf
  constructor <;> simp [ApiRequest.request, hp]

/-- C3 witness: a concrete unauthenticated call fails before dispatch. -/
theorem auth_required_before_dispatch_witness :
    (ApiRequest.request [("user-auth", "/api/users/v1/auth/")] "http://localhost" none
        (some "user-auth") .pyNone "post" true none [] "application/json" "coco"
        .connError).result
      = .error (.requestError "Authentication required")
    ∧ (ApiRequest.request [("user-auth", "/api/users/v1/auth/")] "http://localhost" none
        (some "user-auth") .pyNone "post" true none [] "application/json" "coco"
        .connError).transport_invoked = false :=
  auth_required_before_dispatch _ _ _ _ _ _ _ _ _ _ (by unfold WFTable; decide)

/-- C4 counterexample: the claim quantifies over every supplied `pk`, but
for the falsy `pk = 0` the guard `if pk and '%s' in path` skips the
substitution and the template keeps its literal `%s` slot. -/
theorem route_slot_falsy_pk_counterexample :
    resolvePath [("finish-proxy-log", "/api/proxy-log/%s/")] (some "finish-proxy-log")
        (.int 0)
      = .ok "/api/proxy-log/%s/"
    ∧ hasPS "/api/proxy-log/%s/" = true := ⟨rfl, by decide⟩

/-- C4 (amended): for every operation name in the route table whose
template has exactly one `%s` slot and a truthy supplied `pk`, the slot is
substituted exactly once with `str(pk)` (the template splits as
`pre ++ '%s' ++ post` with no slot in `pre` or `post`, and resolution
yields `pre ++ str(pk) ++ post`); for every name absent from the table,
resolution returns the root path `/` without error. -/
theorem route_resolution :
    (∀ (mapping : List (String × String)) (name path : String) (pk : Pk),
        dictGet mapping name = some path → psCount path.data = 1 → pkTruthy pk = true →
        ∃ pre post : List Char,
          path.data = pre ++ '%' :: 's' :: post ∧ psCount pre = 0 ∧ psCount post = 0 ∧
            resolvePath mapping (some name) pk = .ok ⟨pre ++ (pkStr pk).data ++ post⟩)
    ∧ (∀ (mapping : List (String × String)) (name : String) (pk : Pk),
        dictGet mapping name = none → resolvePath mapping (some name) pk = .ok "/") := by
  constructor
  · intro mapping name path pk hfind hone htr
    have h1 : hasPS path = true := by simp [hasPS, hone]
    obtain ⟨pre, post, hdec, hpre, hpost, hsub⟩ := subst_decomp (pkStr pk).data path.data hone
    refine ⟨pre, post, hdec, hpre, hpost, ?_⟩
    rw [resolvePath_some_eq]
    simp [hfind, htr, h1, pyPercent, hone, hsub]
  · intro mapping name pk hnone
    rw [resolvePath_some_eq]
    simp [hnone]

/-- C4 witness: `resolve('op', pk=42)` on the one-slot template `/t/%s/`
substitutes the slot once, and an unknown operation name resolves to `/`. -/
theorem route_resolution_witness :
    (∃ pre post : List Char,
        ("/t/%s/" : String).data = pre ++ '%' :: 's' :: post ∧ psCount pre = 0 ∧
          psCount post = 0 ∧
          resolvePath [("op", "/t/%s/")] (some "op") (.int 42)
            = .ok ⟨pre ++ (pkStr (.int 42)).data ++ post⟩)
    ∧ resolvePath [] (some "unknown-op") (.int 42) = .ok "/" :=
  ⟨route_resolution.1 [("op", "/t/%s/")] "op" "/t/%s/" (.int 42) (by decide) (by decide)
      (by decide),
   route_resolution.2 [] "unknown-op" (.int 42) (by decide)⟩

/-- C5: when the transport's body is not valid JSON (`result.json()` raises
`ValueError`), `parse_result` returns, without raising, the untouched
response (so the status code is still the real one) paired with the body
`{'error': 'We only support json response'}`. -/
theorem parse_result_non_json_body (r : Response) (h : r.json = none) :
    ApiRequest.parse_result (.resp r)
      = .ok (.resp r, .dm [("error", .pstr "We only support json response")]) := by
  simp [ApiRequest.parse_result, h, dotmapOf, dotmapObj]

/-- C5 witness: a 200 response with body `"not json"`. -/
theorem parse_result_non_json_body_witness :
    ApiRequest.parse_result (.resp ⟨200, none⟩)
      = .ok (.resp ⟨200, none⟩, .dm [("error", .pstr "We only support json response")]) :=
  parse_result_non_json_body ⟨200, none⟩ rfl

/-- C7: a successfully parsed JSON body is wrapped by `DotMap`, whose
attribute-style and key-based accesses read the same underlying mapping on
every node (every nested object and every object inside an array is again
a `dm` node, so the agreement holds recursively); concretely, for body
`{"id": 7, "name": "x"}` both accesses yield the same values. -/
theorem result_body_dual_access :
    (∀ (v : PyVal) (k : String), v.attr k = v.item k)
    ∧ (∀ (r : Response) (j : Json), r.json = some j →
        ApiRequest.parse_result (.resp r) = .ok (.resp r, dotmapOf j))
    ∧ (dotmapOf (.obj [("id", .num 7), ("name", .str "x")])).attr "id" = some (.pnum 7)
    ∧ (dotmapOf (.obj [("id", .num 7), ("name", .str "x")])).item "id" = some (.pnum 7)
    ∧ (dotmapOf (.obj [("id", .num 7), ("name", .str "x")])).attr "name" = some (.pstr "x")
    ∧ (dotmapOf (.obj [("id", .num 7), ("name", .str "x")])).item "name" = some (.pstr "x") :=
  ⟨fun v k => by cases v <;> rfl,
   fun r j h => by simp [ApiRequest.parse_result, h],
   rfl, rfl, rfl, rfl⟩

/-- C7 witness: the normalization applied to a concrete 200 response with
body `{"id": 7, "name": "x"}`. -/
theorem result_body_dual_access_witness :
    ApiRequest.parse_result (.resp ⟨200, some (.obj [("id", .num 7), ("name", .str "x")])⟩)
      = .ok (.resp ⟨200, some (.obj [("id", .num 7), ("name", .str "x")])⟩,
          dotmapOf (.obj [("id", .num 7), ("name", .str "x")])) :=
  result_body_dual_access.2.1 _ _ rfl

/-- C6: for every input, the request body is the JSON serialization of the
dict-coerced `data` (a non-dict body serializes as `{}`) and the
`Content-Type` header equals the given content type even when the caller
supplied one; with body `{a: 1}` and the default content type the
serialized data is `{"a": 1}` and the header is `application/json`. -/
theorem request_body_serialized_and_content_type_forced :
    (∀ (url method : String) (data : Option Json) (params : List (String × String))
        (headers : Option (List (String × String))) (content_type app_name : String),
        (Request.init url method data params headers content_type app_name).data
            = jsonDumps (.obj (dictData data))
          ∧ ciGet (Request.init url method data params headers content_type app_name).headers
              "Content-Type" = some content_type)
    ∧ (Request.init "http://localhost/" "post" (some (.obj [("a", .num 1)])) []
          (some [("Content-Type", "text/plain")]) "application/json" "").data
        = "\x7b\"a\": 1\x7d"
    ∧ ciGet (Request.init "http://localhost/" "post" (some (.obj [("a", .num 1)])) []
          (some [("Content-Type", "text/plain")]) "application/json" "").headers
          "Content-Type"
        = some "application/json"
    ∧ (Request.init "http://localhost/" "post" (some (.arr [.num 1])) [] none
          "application/json" "coco").data = "\x7b\x7d" :=
  ⟨fun url method data params headers content_type app_name =>
      ⟨rfl, Request.init_content_type url method data params headers content_type app_name⟩,
   rfl, rfl, rfl⟩

/-- C8: `UserService.auth` raises `ValueError` exactly when no (truthy)
token is given and the session pair is incomplete; a truthy token binds a
token credential, and a complete session pair (with no token) binds a
session credential.  The function performs no network access — it only
constructs the credential. -/
theorem user_auth_credential_validation (token session_id csrf_token : Option String) :
    (truthyS token = false → (truthyS session_id = false ∨ truthyS csrf_token = false) →
        UserService.auth token session_id csrf_token
          = .error (.valueError "Token or session_id, csrf_token required"))
    ∧ (truthyS token = true →
        UserService.auth token session_id csrf_token = .ok (.token (token.getD "")))
    ∧ (truthyS token = false → truthyS session_id = true → truthyS csrf_token = true →
        UserService.auth token session_id csrf_token
          = .ok (.session (session_id.getD "") (csrf_token.getD ""))) := by
  refine ⟨?_, ?_, ?_⟩
  · intro ht hsc
    rcases hsc with h | h <;> simp [UserService.auth, ht, h]
  · intro ht
    simp [UserService.auth, ht]
  · intro ht hs hc
    simp [UserService.auth, ht, hs, hc]

/-- C8 witness: a token binds, a session pair binds, and the empty
combination raises `ValueError`. -/
theorem user_auth_credential_validation_witness :
    UserService.auth (some "tok") none none = .ok (.token "tok")
    ∧ UserService.auth none (some "sid") (some "csrf") = .ok (.session "sid" "csrf")
    ∧ UserService.auth none none none
        = .error (.valueError "Token or session_id, csrf_token required") :=
  ⟨(user_auth_credential_validation (some "tok") none none).2.1 rfl,
   (user_auth_credential_validation none (some "sid") (some "csrf")).2.2 rfl rfl rfl,
   (user_auth_credential_validation none none none).1 rfl (Or.inl rfl)⟩

/-- C9: `ApiRequest.request` substitutes a `%s` slot only for a truthy
`pk`; for a falsy `pk` (exactly `0`, `''` or `None`) the template is kept
verbatim, so the URL of the built request still contains the literal
`%s`. -/
theorem falsy_pk_keeps_template (mapping : List (String × String))
    (endpoint : String) (auth : Option Unit) (name path : String) (pk : Pk)
    (method : String) (use_auth : Bool) (data : Option Json)
    (params : List (String × String)) (content_type app_name : String)
    (transport : TransportBehavior)
    (hfind : dictGet mapping name = some path) (hfalsy : pkTruthy pk = false) :
    (∃ r, (ApiRequest.request mapping endpoint auth (some name) pk method use_auth data
          params content_type app_name transport).req = some r
        ∧ r.url = rstripSlash endpoint ++ path)
    ∧ resolvePath mapping (some name) pk = .ok path
    ∧ (pkTruthy pk = false ↔ (pk = .int 0 ∨ pk = .str "" ∨ pk = .pyNone)) := by
  have hres : resolvePath mapping (some name) pk = .ok path := by
    rw [resolvePath_some_eq]
    simp [hfind, hfalsy]
  refine ⟨⟨Request.init (rstripSlash endpoint ++ path) method data params none
      content_type app_name, ?_, rfl⟩, hres, ?_⟩
  · simp only [ApiRequest.request, hres]
    split
    · rfl
    · split <;> simp [afterDispatch_req]
  · cases pk <;> simp [pkTruthy]

/-- C9 witness: with `pk = 0` the template `/api/proxy-log/%s/` reaches the
request URL unsubstituted. -/
theorem falsy_pk_keeps_template_witness :
    (∃ r, (ApiRequest.request [("finish-proxy-log", "/api/proxy-log/%s/")]
          "http://localhost/" none (some "finish-proxy-log") (.int 0) "patch" false none
          [] "application/json" "coco" (.returns ⟨200, some (.obj [])⟩)).req = some r
        ∧ r.url = rstripSlash "http://localhost/" ++ "/api/proxy-log/%s/")
    ∧ resolvePath [("finish-proxy-log", "/api/proxy-log/%s/")] (some "finish-proxy-log")
        (.int 0) = .ok "/api/proxy-log/%s/"
    ∧ (pkTruthy (.int 0) = false ↔
        ((.int 0 : Pk) = .int 0 ∨ (.int 0 : Pk) = .str "" ∨ (.int 0 : Pk) = .pyNone)) :=
  falsy_pk_keeps_template _ _ _ _ _ _ _ _ _ _ _ _ _ (by decide) (by decide)

/-- C10: `Request.request` dispatches over the transport exactly when the
method string is a key of `func_mapping` — that is, one of `get`, `post`,
`patch`, `put`; for any other method the `dict.get` lookup yields `None`
and calling it raises `TypeError` without any HTTP dispatch. -/
theorem http_verb_dispatch :
    (∀ m : String, (dictGet funcMappingTable m).isSome = true ↔
        (m = "get" ∨ m = "post" ∨ m = "patch" ∨ m = "put"))
    ∧ (∀ (r : Request) (t : TransportBehavior), dictGet funcMappingTable r.method = none →
        Request.request r t = (.error (.typeError "NoneType object is not callable"), false))
    ∧ (∀ (r : Request) (t : TransportBehavior) (v : HttpVerb),
        dictGet funcMappingTable r.method = some v → (Request.request r t).2 = true) := by
  refine ⟨fun m => ?_, fun r t h => by simp only [Request.request, h], fun r t v h => ?_⟩
  · by_cases h1 : m = "get"
    · subst h1; decide
    by_cases h2 : m = "post"
    · subst h2; decide
    by_cases h3 : m = "patch"
    · subst h3; decide
    by_cases h4 : m = "put"
    · subst h4; decide
    simp [dictGet, funcMappingTable, List.find?, Ne.symm h1, Ne.symm h2, Ne.symm h3,
      Ne.symm h4, h1, h2, h3, h4]
  · simp only [Request.request, h]
    cases t <;> rfl

/-- C10 witness: the unmapped method string `delete` fails the lookup and
performs no HTTP request, while `get` dispatches. -/
theorem http_verb_dispatch_witness :
    Request.request ⟨"http://localhost/", "delete", [], [], "\x7b\x7d"⟩ .connError
      = (.error (.typeError "NoneType object is not callable"), false)
    ∧ (Request.request ⟨"http://localhost/", "get", [], [], "\x7b\x7d"⟩
        (.returns ⟨200, some (.obj [])⟩)).2 = true :=
  ⟨http_verb_dispatch.2.1 _ _ rfl,
   http_verb_dispatch.2.2 _ _ .get rfl⟩

end Jms
